import Mathlib

/-!
Verification of the provider-abstraction and call-orchestration core of the
prompt_playground repository.  The registry, cost calculator, tool executor,
orchestrator loop, adapter request construction, usage extraction and the
facade's credential merge are embedded below; JavaScript numbers are embedded
as rationals, optional values as Option, and thrown errors as Except.
-/

set_option maxHeartbeats 1000000

namespace PromptPlayground

/-- Provider tags, from the union type LLMProvider in src/src/types.ts. -/
inductive LLMProvider
  | openai
  | anthropic
  | google
  | ollama
deriving DecidableEq, Repr

/-- Per-million-token pricing of one model (the cost field of the Model
    interface in src/src/types.ts). -/
structure ModelCost where
  input : ℚ
  output : ℚ
deriving DecidableEq, Repr

/-- One registry entry, from the Model interface in src/src/types.ts. -/
structure Model where
  id : String
  name : String
  provider : LLMProvider
  supportsTools : Bool
  cost : ModelCost
deriving DecidableEq, Repr

/-- The static model registry MODELS of src/src/types.ts, keyed by provider. -/
def MODELS : LLMProvider → List Model
  | .openai =>
      [ ⟨"gpt-4o-mini", "GPT-4o Mini", .openai, true, ⟨0.15, 0.6⟩⟩,
        ⟨"gpt-4.1-mini", "GPT-4.1 Mini", .openai, true, ⟨0.4, 1.6⟩⟩,
        ⟨"gpt-4.1-nano", "GPT-4.1 Nano", .openai, true, ⟨0.1, 0.025⟩⟩,
        ⟨"gpt-4.1", "GPT-4.1", .openai, true, ⟨2.0, 0.5⟩⟩ ]
  | .anthropic =>
      [ ⟨"claude-sonnet-4-20250514", "Claude Sonnet 4", .anthropic, true, ⟨3, 15⟩⟩,
        ⟨"claude-3-7-sonnet-20250219", "Claude 3.7 Sonnet", .anthropic, true, ⟨0.3, 15⟩⟩,
        ⟨"claude-3-5-haiku-20241022", "Claude 3.5 Haiku", .anthropic, true, ⟨0.08, 4⟩⟩ ]
  | .google =>
      [ ⟨"gemini-2.0-flash", "Gemini 2.0 Flash", .google, true, ⟨0.1, 0.4⟩⟩,
        ⟨"gemini-2.5-flash", "Gemini 2.5 Flash", .google, true, ⟨0.15, 0.6⟩⟩ ]
  | .ollama =>
      [ ⟨"llama3.2", "Llama 3.2", .ollama, false, ⟨0, 0⟩⟩,
        ⟨"gemma3", "Gemma 3", .ollama, true, ⟨0, 0⟩⟩ ]

/-- Insertion order of the MODELS record's keys, which is the order
    Object.entries and Object.values iterate in getProviderForModel and
    getModelInfo (src/src/types.ts). -/
def providerOrder : List LLMProvider := [.openai, .anthropic, .google, .ollama]

/-- getProviderForModel from src/src/types.ts: the first provider whose model
    list contains the given id, else null. -/
def getProviderForModel (modelId : String) : Option LLMProvider :=
  providerOrder.find? fun provider => (MODELS provider).any fun m => m.id == modelId

/-- getModelInfo from src/src/types.ts: the first registry entry with the
    given id, scanning providers in insertion order. -/
def getModelInfo (modelId : String) : Option Model :=
  providerOrder.findSome? fun provider => (MODELS provider).find? fun m => m.id == modelId

/-- TokenUsage from src/src/types.ts. -/
structure TokenUsage where
  inputTokens : ℚ
  outputTokens : ℚ
  totalTokens : ℚ
deriving DecidableEq, Repr

/-- calculateCost from the utils module in src/unnamed/part_002 (lines 90-120):
    provider unresolved yields 0; a model id missing from the resolved
    provider's list degrades to that provider's first model's rates; otherwise
    the model's own rates apply, each as tokens / 1e6 times the per-million rate. -/
def calculateCost (tokenUsage : TokenUsage) (modelId : String) : ℚ :=
  match getProviderForModel modelId with
  | none => 0
  | some provider =>
    let providerModels := MODELS provider
    match providerModels.find? (fun m => m.id == modelId) with
    | none =>
      match providerModels with
      | [] => 0
      | fallbackModel :: _ =>
        tokenUsage.inputTokens / 1000000 * fallbackModel.cost.input
          + tokenUsage.outputTokens / 1000000 * fallbackModel.cost.output
    | some model =>
      tokenUsage.inputTokens / 1000000 * model.cost.input
        + tokenUsage.outputTokens / 1000000 * model.cost.output

/-- Cost computation exactly as section 4.1 of the specification words it:
    rates are looked up from the model's registry entry (resolveModel, i.e.
    getModelInfo); an unknown model id degrades to the resolved provider's
    first registered model's rates; an unresolvable provider yields zero.
    Written from the specification's words, to be compared with calculateCost. -/
def computeCostSpec (tokenUsage : TokenUsage) (modelId : String) : ℚ :=
  match getProviderForModel modelId with
  | none => 0
  | some provider =>
    let rates : ModelCost :=
      match getModelInfo modelId with
      | some m => m.cost
      | none =>
        match (MODELS provider).head? with
        | some firstModel => firstModel.cost
        | none => ⟨0, 0⟩
    tokenUsage.inputTokens / 1000000 * rates.input
      + tokenUsage.outputTokens / 1000000 * rates.output

/-- Helper for the cost proofs: the rates calculateCost ends up multiplying
    the token counts by, following exactly its branch structure. -/
def calcRates (modelId : String) : ModelCost :=
  match getProviderForModel modelId with
  | none => ⟨0, 0⟩
  | some provider =>
    match (MODELS provider).find? (fun m => m.id == modelId) with
    | none =>
      match MODELS provider with
      | [] => ⟨0, 0⟩
      | fallbackModel :: _ => fallbackModel.cost
    | some model => model.cost

/-- Modelled from the spec: an arbitrary JavaScript value produced or consumed
    by a user-authored tool body.  The orchestrator only ever observes such a
    value through JSON.stringify, so the value is represented by that
    serialization. -/
structure JsValue where
  stringified : String
deriving DecidableEq, Repr

/-- JSON.stringify as applied by the orchestrator to a tool result. -/
def jsonStringify (v : JsValue) : String := v.stringified

/-- Modelled from the spec: the argument mapping of one tool call
    (string key to already JSON-decoded value, section 3 ToolCall). -/
abbrev ToolArgs := List (String × JsValue)

/-- Modelled from the spec: ToolCall (section 3) - identifier, tool name,
    argument mapping.  The updated types module declaring it is not under
    src/; the fields are those the orchestrator in src/unnamed/part_002 uses. -/
structure ToolCall where
  id : String
  name : String
  arguments : ToolArgs
deriving DecidableEq, Repr

/-- Modelled from the spec: one named parameter of a tool's JSON-Schema-like
    declaration (section 3 Tool), as built by createTool in src/unnamed/part_003. -/
structure ToolParameter where
  type : String
  description : String
  enum : Option (List String) := none
deriving DecidableEq, Repr

/-- Modelled from the spec: a tool's parameter declaration
    { type: "object", properties, required }, as built by createTool in
    src/unnamed/part_003. -/
structure ToolParameters where
  type : String
  properties : List (String × ToolParameter)
  required : List String
deriving DecidableEq, Repr

/-- Modelled from the spec: the function part of a Tool
    (name, description, parameters). -/
structure ToolFunctionDecl where
  name : String
  description : String
  parameters : ToolParameters
deriving DecidableEq, Repr

/-- Modelled from the spec: Tool (section 3), as built by createTool in
    src/unnamed/part_003.  The code body is free-form script text run by the
    Tool Executor; it is embedded by its semantics: the argument mapping is
    mapped to either a produced value or the message of the raised error. -/
structure Tool where
  id : String
  type : String
  function : ToolFunctionDecl
  code : ToolArgs → Except String JsValue
  emoji : Option String := none
  createdAt : Nat
  updatedAt : Nat

/-- Modelled from the spec: message roles, a closed variant (section 3). -/
inductive Role
  | user
  | assistant
  | system
  | tool
deriving DecidableEq, Repr

/-- Modelled from the spec: Message (section 3), with the tool-calling fields
    the orchestrator in src/unnamed/part_002 populates.  Timestamps are
    abstract clock readings. -/
structure Message where
  id : String
  role : Role
  content : String
  timestamp : Nat
  toolCalls : Option (List ToolCall) := none
  toolCallId : Option String := none
deriving DecidableEq, Repr

/-- LLMConfig from src/src/types.ts. -/
structure LLMConfig where
  model : String
  apiKey : Option String := none
  baseUrl : Option String := none
  temperature : ℚ
  maxTokens : ℚ
deriving DecidableEq, Repr

/-- executeTool from src/unnamed/part_002 (lines 342-363): runs the tool's
    code body on the arguments; any raised error is re-raised with its message
    wrapped as "Tool execution failed: " followed by the original message. -/
def executeTool (tool : Tool) (args : ToolArgs) : Except String JsValue :=
  match tool.code args with
  | .ok result => .ok result
  | .error message => .error ("Tool execution failed: " ++ message)

/-- The uniform result each adapter call produces
    ({ content, tokenUsage?, toolCalls? } in src/unnamed/part_002). -/
structure AdapterResult where
  content : String
  tokenUsage : Option TokenUsage
  toolCalls : Option (List ToolCall)
deriving DecidableEq, Repr

/-- The usage-combination expression shared verbatim by all four adapters in
    src/unnamed/part_002: when both rounds report usage the fields are summed;
    otherwise finalResult.tokenUsage, defaulting to initialResult.tokenUsage. -/
def combineTokenUsage (initialUsage finalUsage : Option TokenUsage) : Option TokenUsage :=
  match initialUsage, finalUsage with
  | some i, some f =>
      some ⟨i.inputTokens + f.inputTokens, i.outputTokens + f.outputTokens,
            i.totalTokens + f.totalTokens⟩
  | i, f =>
      match f with
      | some f0 => some f0
      | none => i

/-- The sequential tool-execution loop of the orchestrator
    (src/unnamed/part_002, e.g. lines 636-685 in callOpenAI): for each tool
    call, the named tool is resolved (a missing tool raises), executed through
    executeTool, and the JSON result - or "Error: " with the raised message -
    is appended as a tool-role message referencing the originating call id.
    uuids supplies the k-th generated message id, now the clock reading. -/
def buildToolMessages (uuids : Nat → String) (now : Nat) (tools : List Tool) :
    List ToolCall → Nat → List Message
  | [], _ => []
  | toolCall :: rest, k =>
    let content :=
      match tools.find? (fun t => t.function.name == toolCall.name) with
      | none => "Error: " ++ ("Tool \"" ++ toolCall.name ++ "\" not found")
      | some tool =>
        match executeTool tool toolCall.arguments with
        | .ok result => jsonStringify result
        | .error errorMessage => "Error: " ++ errorMessage
    { id := uuids k, role := .tool, content := content, timestamp := now,
      toolCalls := none, toolCallId := some toolCall.id }
      :: buildToolMessages uuids now tools rest (k + 1)

/-- The working history after the tool round: the original messages, the
    assistant message carrying the returned text and the requested tool calls,
    then one tool-role message per tool call (src/unnamed/part_002). -/
def extendedHistory (uuids : Nat → String) (now : Nat) (messages : List Message)
    (tools : List Tool) (initialResult : AdapterResult)
    (toolCallsToExecute : List ToolCall) : List Message :=
  messages
    ++ ({ id := uuids 0, role := .assistant, content := initialResult.content,
          timestamp := now, toolCalls := some toolCallsToExecute, toolCallId := none }
        :: buildToolMessages uuids now tools toolCallsToExecute 1)

/-- The orchestrated call together with the histories passed to each adapter
    invocation, in order (the instrumentation records how often and with what
    argument the network-facing makeApiCall ran). -/
structure ToolRoundOutcome where
  result : AdapterResult
  apiHistories : List (List Message)
deriving DecidableEq, Repr

/-- The tool-round state machine shared by the adapters in
    src/unnamed/part_002: one adapter invocation; if it requested no tool
    calls the result is returned as-is, otherwise the history is extended with
    the assistant message and the tool results and the adapter is invoked once
    more, the combined usage and the original tool calls attached. -/
def callWithToolHandling (makeApiCall : List Message → AdapterResult)
    (uuids : Nat → String) (now : Nat)
    (messages : List Message) (tools : List Tool) : ToolRoundOutcome :=
  let initialResult := makeApiCall messages
  match initialResult.toolCalls with
  | none => ⟨initialResult, [messages]⟩
  | some [] => ⟨initialResult, [messages]⟩
  | some (toolCall :: rest) =>
    let messagesWithToolCalls :=
      extendedHistory uuids now messages tools initialResult (toolCall :: rest)
    let finalResult := makeApiCall messagesWithToolCalls
    ⟨{ content := finalResult.content,
       tokenUsage := combineTokenUsage initialResult.tokenUsage finalResult.tokenUsage,
       toolCalls := some (toolCall :: rest) },
      [messages, messagesWithToolCalls]⟩

/-- Truthiness test JavaScript applies to an optional string credential:
    undefined and the empty string are falsy. -/
def jsFalsy : Option String → Bool
  | none => true
  | some s => s == ""

/-- OpenAI-format function declaration (callOpenAI's tool conversion). -/
structure OpenAIFunctionDecl where
  name : String
  description : String
  parameters : ToolParameters
deriving DecidableEq, Repr

/-- OpenAI-format tool entry { type: "function", function: {...} }. -/
structure OpenAIToolDecl where
  type : String
  function : OpenAIFunctionDecl
deriving DecidableEq, Repr

/-- Tool conversion at the top of callOpenAI (src/unnamed/part_002). -/
def toOpenAITool (tool : Tool) : OpenAIToolDecl :=
  { type := "function"
    function := { name := tool.function.name, description := tool.function.description,
                  parameters := tool.function.parameters } }

/-- The transport-relevant fields of the request body callOpenAI posts. -/
structure OpenAIRequest where
  url : String
  model : String
  temperature : ℚ
  max_tokens : ℚ
  stream : Bool
  tools : List OpenAIToolDecl
  tool_choice : Option String
deriving DecidableEq, Repr

/-- Pre-network portion of callOpenAI's makeApiCall (src/unnamed/part_002,
    lines 467-529): the credential check and the request construction.  An
    error result means the adapter throws before any fetch; an ok result is
    the request issued.  hasOnChunk records whether an onChunk callback was
    supplied. -/
def openAIRequest (config : LLMConfig) (tools : List Tool) (hasOnChunk : Bool) :
    Except String OpenAIRequest :=
  if jsFalsy config.apiKey then
    .error "OpenAI API key is required"
  else
    let openAITools := tools.map toOpenAITool
    .ok { url := "https://api.openai.com/v1/chat/completions"
          model := config.model
          temperature := config.temperature
          max_tokens := config.maxTokens
          stream := hasOnChunk && (openAITools.length == 0)
          tools := if 0 < openAITools.length then openAITools else []
          tool_choice := if 0 < openAITools.length then some "auto" else none }

/-- Anthropic-format tool entry { name, description, input_schema }. -/
structure AnthropicToolDecl where
  name : String
  description : String
  input_schema : ToolParameters
deriving DecidableEq, Repr

/-- Tool conversion at the top of callAnthropic (src/unnamed/part_002). -/
def toAnthropicTool (tool : Tool) : AnthropicToolDecl :=
  { name := tool.function.name, description := tool.function.description,
    input_schema := tool.function.parameters }

/-- The transport-relevant fields of the request body callAnthropic posts. -/
structure AnthropicRequest where
  url : String
  model : String
  max_tokens : ℚ
  temperature : ℚ
  stream : Bool
  tools : List AnthropicToolDecl
deriving DecidableEq, Repr

/-- Pre-network portion of callAnthropic's makeApiCall (src/unnamed/part_002,
    lines 725-805). -/
def anthropicRequest (config : LLMConfig) (tools : List Tool) (hasOnChunk : Bool) :
    Except String AnthropicRequest :=
  if jsFalsy config.apiKey then
    .error "Anthropic API key is required"
  else
    let anthropicTools := tools.map toAnthropicTool
    .ok { url := "https://api.anthropic.com/v1/messages"
          model := config.model
          max_tokens := config.maxTokens
          temperature := config.temperature
          stream := hasOnChunk && (anthropicTools.length == 0)
          tools := if 0 < anthropicTools.length then anthropicTools else [] }

/-- Google-format function declaration. -/
structure GoogleFunctionDecl where
  name : String
  description : String
  parameters : ToolParameters
deriving DecidableEq, Repr

/-- Google-format tool entry { functionDeclarations: [...] }. -/
structure GoogleToolDecl where
  functionDeclarations : List GoogleFunctionDecl
deriving DecidableEq, Repr

/-- Tool conversion at the top of callGoogle (src/unnamed/part_002). -/
def toGoogleTool (tool : Tool) : GoogleToolDecl :=
  { functionDeclarations :=
      [{ name := tool.function.name, description := tool.function.description,
         parameters := tool.function.parameters }] }

/-- The transport-relevant fields of callGoogle's request: Google selects the
    transport by endpoint rather than a stream body flag. -/
structure GoogleRequest where
  endpoint : String
  useStreaming : Bool
  temperature : ℚ
  maxOutputTokens : ℚ
  tools : List GoogleToolDecl
deriving DecidableEq, Repr

/-- Pre-network portion of callGoogle's makeApiCall (src/unnamed/part_002,
    lines 1009-1119). -/
def googleRequest (config : LLMConfig) (tools : List Tool) (hasOnChunk : Bool) :
    Except String GoogleRequest :=
  if jsFalsy config.apiKey then
    .error "Google API key is required"
  else
    let googleTools := tools.map toGoogleTool
    let useStreaming := hasOnChunk && (tools.length == 0)
    .ok { endpoint := if useStreaming then "streamGenerateContent" else "generateContent"
          useStreaming := useStreaming
          temperature := config.temperature
          maxOutputTokens := config.maxTokens
          tools := if 0 < googleTools.length then googleTools else [] }

/-- Ollama request options block. -/
structure OllamaOptions where
  temperature : ℚ
  num_predict : ℚ
deriving DecidableEq, Repr

/-- The transport-relevant fields of the request body callOllama posts. -/
structure OllamaRequest where
  url : String
  model : String
  stream : Bool
  options : OllamaOptions
  tools : List OpenAIToolDecl
deriving DecidableEq, Repr

/-- Pre-network portion of callOllama's makeApiCall (src/unnamed/part_002,
    lines 1308-1399): no credential check is made; a missing or empty baseUrl
    falls back to http://localhost:11434; tools are sent - and streaming
    suppressed - only when the target model's registry entry declares tool
    support and the supplied tool list is non-empty. -/
def ollamaRequest (config : LLMConfig) (tools : List Tool) (hasOnChunk : Bool) :
    Except String OllamaRequest :=
  let baseUrl :=
    match config.baseUrl with
    | some u => if u == "" then "http://localhost:11434" else u
    | none => "http://localhost:11434"
  let modelInfo := getModelInfo config.model
  let supportsTools :=
    (match modelInfo with
     | some mi => mi.supportsTools
     | none => false) && !(tools.length == 0)
  let ollamaTools := if supportsTools then tools.map toOpenAITool else []
  .ok { url := baseUrl ++ "/api/chat"
        model := config.model
        stream := !supportsTools && hasOnChunk
        options := { temperature := config.temperature, num_predict := config.maxTokens }
        tools := ollamaTools }

/-- The value of a JavaScript expression v || 0 for an optional number:
    a missing field and the (falsy) count 0 both yield 0. -/
def orZero (v : Option ℚ) : ℚ := v.getD 0

/-- The usage object of a buffered OpenAI response
    (usage.prompt_tokens / completion_tokens / total_tokens). -/
structure OpenAIUsagePayload where
  prompt_tokens : Option ℚ
  completion_tokens : Option ℚ
  total_tokens : Option ℚ
deriving DecidableEq, Repr

/-- Usage extraction of callOpenAI's buffered branch (src/unnamed/part_002,
    lines 582-590): each field defaults to 0, the vendor total is copied. -/
def openAITokenUsage (usage : Option OpenAIUsagePayload) : Option TokenUsage :=
  usage.map fun u =>
    ⟨orZero u.prompt_tokens, orZero u.completion_tokens, orZero u.total_tokens⟩

/-- The usage object of a buffered Anthropic response
    (usage.input_tokens / output_tokens). -/
structure AnthropicUsagePayload where
  input_tokens : Option ℚ
  output_tokens : Option ℚ
deriving DecidableEq, Repr

/-- Usage extraction of callAnthropic's buffered branch (src/unnamed/part_002,
    lines 880-887): the total is recomputed as the sum of the two counts. -/
def anthropicTokenUsage (usage : Option AnthropicUsagePayload) : Option TokenUsage :=
  usage.map fun u =>
    ⟨orZero u.input_tokens, orZero u.output_tokens,
     orZero u.input_tokens + orZero u.output_tokens⟩

/-- The usageMetadata object of a buffered Google response. -/
structure GoogleUsageMetadata where
  promptTokenCount : Option ℚ
  candidatesTokenCount : Option ℚ
  totalTokenCount : Option ℚ
deriving DecidableEq, Repr

/-- Usage extraction of callGoogle's buffered branch (src/unnamed/part_002,
    lines 1191-1198): the vendor total is copied. -/
def googleTokenUsage (usage : Option GoogleUsageMetadata) : Option TokenUsage :=
  usage.map fun u =>
    ⟨orZero u.promptTokenCount, orZero u.candidatesTokenCount, orZero u.totalTokenCount⟩

/-- Truthiness of an optional JavaScript number: present and non-zero. -/
def jsTruthyNum (v : Option ℚ) : Bool :=
  match v with
  | some x => !(x == 0)
  | none => false

/-- Usage extraction of callOllama's buffered branch (src/unnamed/part_002,
    lines 1477-1484): usage exists only when both counts are truthy, and the
    total is recomputed as their sum. -/
def ollamaTokenUsage (prompt_eval_count eval_count : Option ℚ) : Option TokenUsage :=
  if jsTruthyNum prompt_eval_count && jsTruthyNum eval_count then
    some ⟨prompt_eval_count.getD 0, eval_count.getD 0,
          prompt_eval_count.getD 0 + eval_count.getD 0⟩
  else none

/-- One stored per-provider credential record
    (storage.getProviderConfigs in src/unnamed/part_002). -/
structure StoredProviderConfig where
  apiKey : Option String := none
  baseUrl : Option String := none
deriving DecidableEq, Repr

/-- The apiKey the merged config carries: the object spread
    ...(providerConfig?.apiKey && { apiKey: providerConfig.apiKey }) overrides
    the given value only when the stored key is present and truthy. -/
def mergedApiKey (providerConfig : Option StoredProviderConfig)
    (given : Option String) : Option String :=
  match providerConfig with
  | some pc =>
    match pc.apiKey with
    | some k => if k == "" then given else some k
    | none => given
  | none => given

/-- The baseUrl the merged config carries, by the same spread rule. -/
def mergedBaseUrl (providerConfig : Option StoredProviderConfig)
    (given : Option String) : Option String :=
  match providerConfig with
  | some pc =>
    match pc.baseUrl with
    | some b => if b == "" then given else some b
    | none => given
  | none => given

/-- The credential merge in createApiCall (src/unnamed/part_002, lines
    384-391): the stored per-provider record is spread over the given config. -/
def mergeProviderConfig (config : LLMConfig)
    (providerConfig : Option StoredProviderConfig) : LLMConfig :=
  { config with
    apiKey := mergedApiKey providerConfig config.apiKey
    baseUrl := mergedBaseUrl providerConfig config.baseUrl }

/-- The start of createApiCall (src/unnamed/part_002, lines 365-391): resolve
    the provider from config.model (an unknown model throws), then merge that
    provider's stored credential record over the given config.  The store is
    the per-provider credential record read from browser-local storage. -/
def resolveMergedConfig (providerConfigs : LLMProvider → Option StoredProviderConfig)
    (config : LLMConfig) : Except String LLMConfig :=
  match getProviderForModel config.model with
  | none => .error ("Unknown provider for model: " ++ config.model)
  | some provider => .ok (mergeProviderConfig config (providerConfigs provider))

/-- Concrete tool used by witnesses and counterexamples: a weather lookup
    whose body succeeds with a null result. -/
def demoTool : Tool :=
  { id := "tool-1", type := "function",
    function := { name := "lookup", description := "look up the weather",
                  parameters := { type := "object", properties := [], required := [] } },
    code := fun _ => .ok ⟨"null"⟩,
    createdAt := 0, updatedAt := 0 }

/-- Concrete tool whose body throws with message "network down". -/
def networkDownTool : Tool :=
  { id := "tool-2", type := "function",
    function := { name := "lookup", description := "look up the weather",
                  parameters := { type := "object", properties := [], required := [] } },
    code := fun _ => .error "network down",
    createdAt := 0, updatedAt := 0 }

/-- Concrete user message opening a conversation. -/
def userMsg : Message :=
  { id := "m1", role := .user, content := "2+2?", timestamp := 0 }

/-- Concrete tool call requesting the lookup tool. -/
def lookupCall : ToolCall :=
  { id := "call-1", name := "lookup", arguments := [("city", ⟨"\"Paris\""⟩)] }

/-- Concrete deterministic id supply for the generated messages. -/
def demoUuids : Nat → String
  | 0 => "u0"
  | _ => "u1"

/-- Concrete adapter behaviour: the first round (one message of history)
    requests the lookup tool, the second round answers. -/
def demoApi : List Message → AdapterResult := fun ms =>
  if ms.length == 1 then
    { content := "", tokenUsage := some ⟨7, 3, 10⟩, toolCalls := some [lookupCall] }
  else
    { content := "It is 20°C", tokenUsage := some ⟨20, 5, 25⟩, toolCalls := none }

/-- Concrete credential store holding only an OpenAI key. -/
def leftoverStore : LLMProvider → Option StoredProviderConfig := fun p =>
  match p with
  | .openai => some { apiKey := some "sk-openai", baseUrl := none }
  | _ => none

/-- Concrete config addressing an Anthropic model while still carrying the
    OpenAI key left over in the generic config. -/
def leftoverConfig : LLMConfig :=
  { model := "claude-sonnet-4-20250514", apiKey := some "sk-openai", baseUrl := none,
    temperature := 0.2, maxTokens := 100 }

/-- Concrete credential store holding an Anthropic record. -/
def storedStore : LLMProvider → Option StoredProviderConfig := fun p =>
  match p with
  | .anthropic => some { apiKey := some "sk-ant", baseUrl := some "https://alt.example" }
  | _ => none

/-- Concrete config addressing an Anthropic model with stale generic values. -/
def storedConfig : LLMConfig :=
  { model := "claude-sonnet-4-20250514", apiKey := some "sk-openai",
    baseUrl := some "http://other", temperature := 0.2, maxTokens := 100 }

end PromptPlayground

namespace PromptPlayground

/-! ## Helper lemmas -/

/-- Helper: when the provider scan of getProviderForModel succeeds, the model
    scan of getModelInfo stops at that same provider's list and finds a model
    there. -/
theorem find_provider_findSome (pred : Model → Bool) :
    ∀ (L : List LLMProvider) (p : LLMProvider),
      L.find? (fun q => (MODELS q).any pred) = some p →
      (L.findSome? fun q => (MODELS q).find? pred) = (MODELS p).find? pred
        ∧ ((MODELS p).find? pred).isSome := by
  intro L
  induction L with
  | nil => intro p h; simp at h
  | cons a t ih =>
    intro p h
    rw [List.find?_cons] at h
    cases ha : (MODELS a).any pred with
    | true =>
      rw [ha] at h
      simp only [Option.some.injEq] at h
      cases h
      have hs : ((MODELS a).find? pred).isSome := by
        rw [List.find?_isSome]
        exact List.any_eq_true.mp ha
      refine ⟨?_, hs⟩
      rw [List.findSome?_cons]
      obtain ⟨m, hm⟩ := Option.isSome_iff_exists.mp hs
      rw [hm]
    | false =>
      rw [ha] at h
      simp only at h
      have hnone : (MODELS a).find? pred = none := by
        rw [List.find?_eq_none]
        intro x hx
        have := List.any_eq_false.mp ha x hx
        simpa using this
      rw [List.findSome?_cons, hnone]
      exact ih p h

/-- Helper: every registered model has non-negative per-million rates. -/
theorem rates_nonneg :
    ∀ (p : LLMProvider), ∀ m ∈ MODELS p, 0 ≤ m.cost.input ∧ 0 ≤ m.cost.output := by
  intro p m hm
  cases p <;> fin_cases hm <;> constructor <;> norm_num

/-- Helper: calculateCost always multiplies the token counts by the rates
    calcRates selects. -/
theorem calculateCost_eq_rates (u : TokenUsage) (mid : String) :
    calculateCost u mid =
      u.inputTokens / 1000000 * (calcRates mid).input
        + u.outputTokens / 1000000 * (calcRates mid).output := by
  unfold calculateCost calcRates
  cases hp : getProviderForModel mid with
  | none => simp
  | some p =>
    cases hm : (MODELS p).find? (fun m => m.id == mid) with
    | some m => simp only [hm]
    | none =>
      cases hl : MODELS p with
      | nil => simp only [hm]; simp [hl]
      | cons fb rest => simp only [hm]; simp only [hl]

/-- Helper: the rates calculateCost selects are non-negative for any model id. -/
theorem calcRates_nonneg (mid : String) :
    0 ≤ (calcRates mid).input ∧ 0 ≤ (calcRates mid).output := by
  unfold calcRates
  cases hp : getProviderForModel mid with
  | none => constructor <;> norm_num
  | some p =>
    cases hm : (MODELS p).find? (fun m => m.id == mid) with
    | some m =>
      simp only [hm]
      exact rates_nonneg p m (List.mem_of_find?_eq_some hm)
    | none =>
      cases hl : MODELS p with
      | nil => simp only [hm]; simp only [hl]; constructor <;> norm_num
      | cons fb rest =>
        simp only [hm]; simp only [hl]
        have hfb : fb ∈ MODELS p := by rw [hl]; exact List.mem_cons_self fb rest
        exact rates_nonneg p fb hfb

/-! ## Claim theorems -/

/-- C4: for every token-usage record and every model id present in the
    registry, calculateCost returns exactly
    inputTokens / 1e6 times the model's input rate plus
    outputTokens / 1e6 times its output rate; in particular, for model
    gpt-4o-mini and usage 10/1 input/output tokens it returns
    (10/1e6) * 0.15 + (1/1e6) * 0.6 (Scenario A's cost). -/
theorem calculateCost_registry_formula :
    (∀ (u : TokenUsage) (p : LLMProvider) (m : Model), m ∈ MODELS p →
        calculateCost u m.id =
          u.inputTokens / 1000000 * m.cost.input
            + u.outputTokens / 1000000 * m.cost.output)
      ∧ calculateCost ⟨10, 1, 11⟩ "gpt-4o-mini" = 10 / 1000000 * 0.15 + 1 / 1000000 * 0.6 := by
  constructor
  · intro u p m hm
    cases p <;> fin_cases hm <;> rfl
  · rfl

/-- Witness for C4 at a concrete registered model and usage. -/
theorem calculateCost_registry_formula_witness :
    calculateCost ⟨50, 20, 70⟩ "claude-3-5-haiku-20241022" =
      50 / 1000000 * 0.08 + 20 / 1000000 * 4 :=
  calculateCost_registry_formula.1 ⟨50, 20, 70⟩ .anthropic
    ⟨"claude-3-5-haiku-20241022", "Claude 3.5 Haiku", .anthropic, true, ⟨0.08, 4⟩⟩
    (by simp [ MODELS ])

/-- C8: calculateCost never fails; it agrees everywhere with the cost policy
    as the specification words it (computeCostSpec): rates from the model's
    registry entry, degradation to the resolved provider's first model's
    rates when the model id is unknown, and zero when no provider resolves.
    (The logging of the warnings is a side effect outside the embedding.) -/
theorem calculateCost_matches_spec_policy :
    ∀ (u : TokenUsage) (modelId : String),
      calculateCost u modelId = computeCostSpec u modelId := by
  intro u mid
  unfold calculateCost computeCostSpec
  cases hp : getProviderForModel mid with
  | none => rfl
  | some p =>
    have hfind : providerOrder.find? (fun q => (MODELS q).any fun m => m.id == mid)
        = some p := hp
    obtain ⟨h1, h2⟩ := find_provider_findSome (fun m => m.id == mid) providerOrder p hfind
    have hinfo : getModelInfo mid = (MODELS p).find? (fun m => m.id == mid) := h1
    cases hm : (MODELS p).find? (fun m => m.id == mid) with
    | none => rw [hm] at h2; simp at h2
    | some m =>
      rw [hinfo, hm]
      simp only [hm]

/-- C9: for every fixed model id, calculateCost is monotone in the usage
    record whenever the token counts are non-negative and grow field-wise. -/
theorem calculateCost_monotone :
    ∀ (modelId : String) (u1 u2 : TokenUsage),
      0 ≤ u1.inputTokens → 0 ≤ u1.outputTokens →
      u1.inputTokens ≤ u2.inputTokens → u1.outputTokens ≤ u2.outputTokens →
      calculateCost u1 modelId ≤ calculateCost u2 modelId := by
  intro mid u1 u2 hi ho h1 h2
  rw [calculateCost_eq_rates u1 mid, calculateCost_eq_rates u2 mid]
  obtain ⟨hri, hro⟩ := calcRates_nonneg mid
  have e1 : u1.inputTokens / 1000000 * (calcRates mid).input
      ≤ u2.inputTokens / 1000000 * (calcRates mid).input := by
    apply mul_le_mul_of_nonneg_right _ hri
    exact (div_le_div_iff_of_pos_right (by norm_num)).mpr h1
  have e2 : u1.outputTokens / 1000000 * (calcRates mid).output
      ≤ u2.outputTokens / 1000000 * (calcRates mid).output := by
    apply mul_le_mul_of_nonneg_right _ hro
    exact (div_le_div_iff_of_pos_right (by norm_num)).mpr h2
  linarith

/-- Witness for C9 at concrete usages for gpt-4o-mini. -/
theorem calculateCost_monotone_witness :
    calculateCost ⟨1, 1, 2⟩ "gpt-4o-mini" ≤ calculateCost ⟨2, 3, 5⟩ "gpt-4o-mini" :=
  calculateCost_monotone "gpt-4o-mini" ⟨1, 1, 2⟩ ⟨2, 3, 5⟩
    (by norm_num) (by norm_num) (by norm_num) (by norm_num)

end PromptPlayground

namespace PromptPlayground

/-- C1 (amended): whenever the supplied tool list is non-empty, the OpenAI,
    Anthropic and Google adapters never take the streaming transport path
    (stream flag false, buffered generateContent endpoint for Google), for
    every config and onChunk callback; the Ollama adapter guarantees this only
    when the target model's registry entry declares tool support - otherwise
    it drops the tools and may stream. -/
theorem adapters_buffered_when_tools_present :
    (∀ (config : LLMConfig) (tools : List Tool) (hasOnChunk : Bool), tools ≠ [] →
        (openAIRequest config tools hasOnChunk).map OpenAIRequest.stream ≠ Except.ok true)
    ∧ (∀ (config : LLMConfig) (tools : List Tool) (hasOnChunk : Bool), tools ≠ [] →
        (anthropicRequest config tools hasOnChunk).map AnthropicRequest.stream ≠ Except.ok true)
    ∧ (∀ (config : LLMConfig) (tools : List Tool) (hasOnChunk : Bool), tools ≠ [] →
        (googleRequest config tools hasOnChunk).map GoogleRequest.useStreaming ≠ Except.ok true
          ∧ (googleRequest config tools hasOnChunk).map GoogleRequest.endpoint
              ≠ Except.ok "streamGenerateContent")
    ∧ (∀ (config : LLMConfig) (tools : List Tool) (hasOnChunk : Bool) (mi : Model),
        tools ≠ [] →
        getModelInfo config.model = some mi → mi.supportsTools = true →
        (ollamaRequest config tools hasOnChunk).map OllamaRequest.stream ≠ Except.ok true) := by
  refine ⟨?_, ?_, ?_, ?_⟩
  · intro c ts hc hne heq
    unfold openAIRequest at heq
    by_cases hk : jsFalsy c.apiKey
    · rw [if_pos hk] at heq; simp [Except.map] at heq
    · rw [if_neg hk] at heq
      simp only [Except.map, Except.ok.injEq] at heq
      simp only [Bool.and_eq_true, beq_iff_eq, List.length_eq_zero, List.map_eq_nil_iff] at heq
      exact hne heq.2
  · intro c ts hc hne heq
    unfold anthropicRequest at heq
    by_cases hk : jsFalsy c.apiKey
    · rw [if_pos hk] at heq; simp [Except.map] at heq
    · rw [if_neg hk] at heq
      simp only [Except.map, Except.ok.injEq] at heq
      simp only [Bool.and_eq_true, beq_iff_eq, List.length_eq_zero, List.map_eq_nil_iff] at heq
      exact hne heq.2
  · intro c ts hc hne
    constructor
    · intro heq
      unfold googleRequest at heq
      by_cases hk : jsFalsy c.apiKey
      · rw [if_pos hk] at heq; simp [Except.map] at heq
      · rw [if_neg hk] at heq
        simp only [Except.map, Except.ok.injEq] at heq
        simp only [Bool.and_eq_true, beq_iff_eq, List.length_eq_zero] at heq
        exact hne heq.2
    · intro heq
      unfold googleRequest at heq
      by_cases hk : jsFalsy c.apiKey
      · rw [if_pos hk] at heq; simp [Except.map] at heq
      · rw [if_neg hk] at heq
        simp only [Except.map, Except.ok.injEq] at heq
        by_cases hs : (hc && (ts.length == 0)) = true
        · rw [hs] at heq
          simp only [Bool.and_eq_true, beq_iff_eq, List.length_eq_zero] at hs
          exact hne hs.2
        · simp only [Bool.not_eq_true] at hs
          rw [hs] at heq
          simp at heq
  · intro c ts hc mi hne hmi hsup
    have hz : (ts.length == 0) = false := by
      simp only [beq_eq_false_iff_ne, ne_eq, List.length_eq_zero]
      exact hne
    simp only [ollamaRequest, hmi, hsup, hz, Bool.not_false, Bool.true_and, Bool.not_true,
      Bool.false_and, Except.map]
    simp

/-- Counterexample to C1 as stated: the Ollama adapter, given the registered
    model llama3.2 (whose registry entry does not declare tool support), a
    non-empty tool list and an onChunk callback, still issues a streaming
    request (stream flag true). -/
theorem ollama_streams_with_tools_cex :
    ([demoTool] : List Tool) ≠ []
    ∧ (ollamaRequest
          { model := "llama3.2", apiKey := none, baseUrl := some "http://host:1234", temperature := 0.2, maxTokens := 100 }
          [demoTool] true).map OllamaRequest.stream =
        .ok true := by
  constructor
  · simp
  · rfl

/-- Witness for C1's amended theorem at concrete configs and a concrete tool
    for all four adapters. -/
theorem adapters_buffered_when_tools_present_witness :
    (openAIRequest { model := "gpt-4o-mini", apiKey := some "x", temperature := 0.2, maxTokens := 100 } [demoTool] true).map OpenAIRequest.stream ≠ Except.ok true
  ∧ (anthropicRequest { model := "claude-3-5-haiku-20241022", apiKey := some "x", temperature := 0.2, maxTokens := 100 } [demoTool] true).map AnthropicRequest.stream ≠ Except.ok true
  ∧ (googleRequest { model := "gemini-2.0-flash", apiKey := some "x", temperature := 0.2, maxTokens := 100 } [demoTool] true).map GoogleRequest.useStreaming ≠ Except.ok true
  ∧ (ollamaRequest { model := "gemma3", apiKey := none, baseUrl := some "http://localhost:11434", temperature := 0.2, maxTokens := 100 } [demoTool] true).map OllamaRequest.stream ≠ Except.ok true :=
  ⟨adapters_buffered_when_tools_present.1 _ _ _ (List.cons_ne_nil demoTool []),
   adapters_buffered_when_tools_present.2.1 _ _ _ (List.cons_ne_nil demoTool []),
   (adapters_buffered_when_tools_present.2.2.1 _ _ _ (List.cons_ne_nil demoTool [])).1,
   adapters_buffered_when_tools_present.2.2.2 _ _ _ ⟨"gemma3", "Gemma 3", .ollama, true, ⟨0, 0⟩⟩
     (List.cons_ne_nil demoTool []) rfl rfl⟩

/-- C2 (amended): when the single requested tool's body throws with message m,
    the orchestrator does not abort: it appends a tool-role message
    referencing the originating call id whose content is
    "Error: " followed by "Tool execution failed: " followed by m (the
    executor wraps the thrown message), re-invokes the adapter exactly once
    more with the extended history, and completes with that second call's
    content, the combined usage and the original tool calls. -/
theorem tool_failure_recovered_in_band :
    ∀ (api : List Message → AdapterResult) (uuids : Nat → String) (now : Nat)
      (messages : List Message) (tools : List Tool) (tc : ToolCall) (tool : Tool)
      (m : String),
      (api messages).toolCalls = some [tc] →
      tools.find? (fun t => t.function.name == tc.name) = some tool →
      tool.code tc.arguments = .error m →
      callWithToolHandling api uuids now messages tools =
        { result :=
            { content := (api (extendedHistory uuids now messages tools (api messages) [tc])).content
              tokenUsage := combineTokenUsage (api messages).tokenUsage
                  (api (extendedHistory uuids now messages tools (api messages) [tc])).tokenUsage
              toolCalls := some [tc] }
          apiHistories := [messages, extendedHistory uuids now messages tools (api messages) [tc]] }
        ∧ extendedHistory uuids now messages tools (api messages) [tc] =
            messages ++
              [{ id := uuids 0, role := .assistant, content := (api messages).content,
                 timestamp := now, toolCalls := some [tc], toolCallId := none },
               { id := uuids 1, role := .tool,
                 content := "Error: " ++ ("Tool execution failed: " ++ m),
                 timestamp := now, toolCalls := none, toolCallId := some tc.id }] := by
  intro api uuids now messages tools tc tool m h1 h2 h3
  constructor
  · simp only [callWithToolHandling, h1]
  · simp only [extendedHistory, buildToolMessages, executeTool, h2, h3]

/-- Counterexample to C2 as stated: with a tool body throwing "network down",
    the appended tool-role message's content is
    "Error: Tool execution failed: network down", not "Error: network down"
    as the claim asserts (the call, however, does complete). -/
theorem tool_error_content_cex :
    (callWithToolHandling demoApi demoUuids 0 [userMsg] [networkDownTool]).apiHistories =
      [[userMsg],
       [userMsg,
        { id := "u0", role := .assistant, content := "", timestamp := 0,
          toolCalls := some [lookupCall], toolCallId := none },
        { id := "u1", role := .tool, content := "Error: Tool execution failed: network down",
          timestamp := 0, toolCalls := none, toolCallId := some "call-1" }]]
    ∧ (callWithToolHandling demoApi demoUuids 0 [userMsg] [networkDownTool]).result.content
        = "It is 20°C"
    ∧ "Error: Tool execution failed: network down" ≠ "Error: network down" := by
  refine ⟨rfl, rfl, ?_⟩
  decide

/-- Witness for C2's amended theorem at the concrete failing lookup tool. -/
theorem tool_failure_recovered_in_band_witness :
    callWithToolHandling demoApi demoUuids 0 [userMsg] [networkDownTool] =
      { result :=
          { content := (demoApi (extendedHistory demoUuids 0 [userMsg] [networkDownTool] (demoApi [userMsg]) [lookupCall])).content
            tokenUsage := combineTokenUsage (demoApi [userMsg]).tokenUsage
                (demoApi (extendedHistory demoUuids 0 [userMsg] [networkDownTool] (demoApi [userMsg]) [lookupCall])).tokenUsage
            toolCalls := some [lookupCall] }
        apiHistories := [[userMsg], extendedHistory demoUuids 0 [userMsg] [networkDownTool] (demoApi [userMsg]) [lookupCall]] }
    ∧ extendedHistory demoUuids 0 [userMsg] [networkDownTool] (demoApi [userMsg]) [lookupCall] =
        [userMsg] ++
          [{ id := demoUuids 0, role := .assistant, content := (demoApi [userMsg]).content, timestamp := 0, toolCalls := some [lookupCall], toolCallId := none },
           { id := demoUuids 1, role := .tool, content := "Error: " ++ ("Tool execution failed: " ++ "network down"), timestamp := 0, toolCalls := none, toolCallId := some lookupCall.id }] :=
  tool_failure_recovered_in_band demoApi demoUuids 0 [userMsg] [networkDownTool] lookupCall
    networkDownTool "network down" rfl rfl rfl

end PromptPlayground

namespace PromptPlayground

/-- C3 (amended): for each cloud adapter (OpenAI, Anthropic, Google), an
    absent config.apiKey makes the call fail with that adapter's missing-key
    error before any request is constructed (the error result carries no
    request, so zero transport invocations); the Ollama adapter, however,
    never requires baseUrl - when it is absent the request is still issued,
    against the default base URL http://localhost:11434. -/
theorem missing_credential_fails_fast :
    (∀ (config : LLMConfig) (tools : List Tool) (hasOnChunk : Bool), config.apiKey = none →
        openAIRequest config tools hasOnChunk = .error "OpenAI API key is required")
    ∧ (∀ (config : LLMConfig) (tools : List Tool) (hasOnChunk : Bool), config.apiKey = none →
        anthropicRequest config tools hasOnChunk = .error "Anthropic API key is required")
    ∧ (∀ (config : LLMConfig) (tools : List Tool) (hasOnChunk : Bool), config.apiKey = none →
        googleRequest config tools hasOnChunk = .error "Google API key is required")
    ∧ (∀ (config : LLMConfig) (tools : List Tool) (hasOnChunk : Bool), config.baseUrl = none →
        (ollamaRequest config tools hasOnChunk).map OllamaRequest.url =
          .ok "http://localhost:11434/api/chat") := by
  refine ⟨?_, ?_, ?_, ?_⟩
  · intro c ts hc h; unfold openAIRequest; simp [jsFalsy, h]
  · intro c ts hc h; unfold anthropicRequest; simp [jsFalsy, h]
  · intro c ts hc h; unfold googleRequest; simp [jsFalsy, h]
  · intro c ts hc h; unfold ollamaRequest; rw [h]; rfl

/-- Counterexample to C3 as stated: the Ollama adapter with baseUrl absent
    does not fail with a missing-credential error; it issues the request
    against the default base URL. -/
theorem ollama_missing_baseUrl_cex :
    ollamaRequest
        { model := "llama3.2", apiKey := none, baseUrl := none, temperature := 0.2, maxTokens := 100 }
        [] false =
      .ok { url := "http://localhost:11434/api/chat", model := "llama3.2", stream := false,
            options := { temperature := 0.2, num_predict := 100 }, tools := [] } := by
  rfl

/-- Witness for C3's amended theorem at concrete configs with absent
    credentials. -/
theorem missing_credential_fails_fast_witness :
    openAIRequest { model := "gpt-4o-mini", apiKey := none, temperature := 0.2, maxTokens := 100 } [] true = .error "OpenAI API key is required"
  ∧ anthropicRequest { model := "claude-3-5-haiku-20241022", apiKey := none, temperature := 0.2, maxTokens := 100 } [] true = .error "Anthropic API key is required"
  ∧ googleRequest { model := "gemini-2.0-flash", apiKey := none, temperature := 0.2, maxTokens := 100 } [] true = .error "Google API key is required"
  ∧ (ollamaRequest { model := "llama3.2", apiKey := none, baseUrl := none, temperature := 0.2, maxTokens := 100 } [] true).map OllamaRequest.url = .ok "http://localhost:11434/api/chat" :=
  ⟨missing_credential_fails_fast.1 _ [] true rfl,
   missing_credential_fails_fast.2.1 _ [] true rfl,
   missing_credential_fails_fast.2.2.1 _ [] true rfl,
   missing_credential_fails_fast.2.2.2 _ [] true rfl⟩

/-- C5: when the orchestrator performs the tool round, the usage it returns is
    combineTokenUsage of the two rounds' usage records, and that combination
    is the field-wise sum when both rounds report usage, the present one
    unchanged when exactly one does, and nothing when neither does. -/
theorem toolRound_usage_combination :
    (∀ (api : List Message → AdapterResult) (uuids : Nat → String) (now : Nat)
        (messages : List Message) (tools : List Tool) (tc : ToolCall) (rest : List ToolCall),
        (api messages).toolCalls = some (tc :: rest) →
        (callWithToolHandling api uuids now messages tools).result.tokenUsage =
          combineTokenUsage (api messages).tokenUsage
            (api (extendedHistory uuids now messages tools (api messages) (tc :: rest))).tokenUsage)
    ∧ (∀ i f : TokenUsage, combineTokenUsage (some i) (some f) =
        some ⟨i.inputTokens + f.inputTokens, i.outputTokens + f.outputTokens,
              i.totalTokens + f.totalTokens⟩)
    ∧ (∀ i : TokenUsage, combineTokenUsage (some i) none = some i)
    ∧ (∀ f : TokenUsage, combineTokenUsage none (some f) = some f)
    ∧ combineTokenUsage none none = none := by
  refine ⟨?_, fun i f => rfl, fun i => rfl, fun f => rfl, rfl⟩
  intro api uuids now messages tools tc rest h
  simp only [callWithToolHandling, h]

/-- Witness for C5 at the concrete two-round exchange. -/
theorem toolRound_usage_combination_witness :
    (callWithToolHandling demoApi demoUuids 0 [userMsg] [networkDownTool]).result.tokenUsage =
      combineTokenUsage (demoApi [userMsg]).tokenUsage
        (demoApi (extendedHistory demoUuids 0 [userMsg] [networkDownTool] (demoApi [userMsg]) [lookupCall])).tokenUsage :=
  toolRound_usage_combination.1 demoApi demoUuids 0 [userMsg] [networkDownTool] lookupCall [] rfl

/-- C6 (amended): the TokenUsage records built by the Anthropic and Ollama
    adapters always satisfy totalTokens = inputTokens + outputTokens because
    those adapters recompute the total from the two component counts; the
    OpenAI and Google adapters instead copy the vendor-reported total, so the
    invariant is not enforced there. -/
theorem recomputed_totals_anthropic_ollama :
    (∀ (u : Option AnthropicUsagePayload) (t : TokenUsage),
        anthropicTokenUsage u = some t → t.totalTokens = t.inputTokens + t.outputTokens)
    ∧ (∀ (promptCount evalCount : Option ℚ) (t : TokenUsage),
        ollamaTokenUsage promptCount evalCount = some t →
          t.totalTokens = t.inputTokens + t.outputTokens) := by
  constructor
  · intro u t h
    cases u with
    | none => simp [anthropicTokenUsage] at h
    | some payload =>
      simp only [anthropicTokenUsage, Option.map, Option.some.injEq] at h
      rw [← h]
  · intro pc ec t h
    unfold ollamaTokenUsage at h
    by_cases hb : (jsTruthyNum pc && jsTruthyNum ec) = true
    · rw [if_pos hb] at h
      simp only [Option.some.injEq] at h
      rw [← h]
    · rw [if_neg hb] at h
      simp at h

/-- Counterexample to C6 as stated: the OpenAI usage extraction copies a
    mismatched vendor total (1 input, 2 output, total 100) instead of
    verifying or recomputing it. -/
theorem vendor_total_trusted_cex :
    openAITokenUsage
        (some { prompt_tokens := some 1, completion_tokens := some 2, total_tokens := some 100 }) =
      some { inputTokens := 1, outputTokens := 2, totalTokens := 100 }
    ∧ (100 : ℚ) ≠ 1 + 2 := by
  constructor
  · rfl
  · norm_num

/-- Witness for C6's amended theorem at concrete usage payloads. -/
theorem recomputed_totals_anthropic_ollama_witness :
    (TokenUsage.totalTokens ⟨7, 3, 7 + 3⟩ =
        TokenUsage.inputTokens ⟨7, 3, 7 + 3⟩ + TokenUsage.outputTokens ⟨7, 3, 7 + 3⟩)
    ∧ (TokenUsage.totalTokens ⟨4, 5, 4 + 5⟩ =
        TokenUsage.inputTokens ⟨4, 5, 4 + 5⟩ + TokenUsage.outputTokens ⟨4, 5, 4 + 5⟩) :=
  ⟨recomputed_totals_anthropic_ollama.1 (some ⟨some 7, some 3⟩) ⟨7, 3, 7 + 3⟩ rfl,
   recomputed_totals_anthropic_ollama.2 (some 4) (some 5) ⟨4, 5, 4 + 5⟩
     (by simp [ollamaTokenUsage, jsTruthyNum])⟩

/-- C7 (amended): at the start of createApiCall the stored record for the
    resolved provider is merged over the given config, and a stored non-empty
    apiKey or baseUrl takes precedence over whatever the given config carried;
    but when the store holds no record (or no key) for the resolved provider,
    the caller-supplied value - possibly left over from a different provider -
    is kept, so such a leftover credential can still be sent. -/
theorem stored_credentials_take_precedence :
    ∀ (store : LLMProvider → Option StoredProviderConfig) (config : LLMConfig)
      (p : LLMProvider) (pc : StoredProviderConfig),
      getProviderForModel config.model = some p →
      store p = some pc →
      resolveMergedConfig store config = .ok (mergeProviderConfig config (store p))
        ∧ (∀ k, pc.apiKey = some k → k ≠ "" →
            (mergeProviderConfig config (store p)).apiKey = some k)
        ∧ (∀ b, pc.baseUrl = some b → b ≠ "" →
            (mergeProviderConfig config (store p)).baseUrl = some b) := by
  intro store c p pc hp hs
  refine ⟨?_, ?_, ?_⟩
  · simp only [resolveMergedConfig, hp]
  · intro k hk hne
    simp [mergeProviderConfig, mergedApiKey, hs, hk, hne]
  · intro b hb hne
    simp [mergeProviderConfig, mergedBaseUrl, hs, hb, hne]

/-- Counterexample to C7 as stated: with a store holding only an OpenAI key
    and a config addressing an Anthropic model while carrying that OpenAI key
    left over, the merged config createApiCall hands to the Anthropic adapter
    still carries the OpenAI key - the claimed "never sent to the resolved
    provider" fails when the store has no record for that provider. -/
theorem leftover_credential_sent_cex :
    getProviderForModel leftoverConfig.model = some .anthropic
    ∧ (resolveMergedConfig leftoverStore leftoverConfig).map LLMConfig.apiKey =
        .ok (some "sk-openai") := by
  constructor
  · rfl
  · rfl

/-- Witness for C7's amended theorem at a concrete store and config. -/
theorem stored_credentials_take_precedence_witness :
    resolveMergedConfig storedStore storedConfig =
        .ok (mergeProviderConfig storedConfig (storedStore .anthropic))
    ∧ (mergeProviderConfig storedConfig (storedStore .anthropic)).apiKey = some "sk-ant"
    ∧ (mergeProviderConfig storedConfig (storedStore .anthropic)).baseUrl =
        some "https://alt.example" :=
  have h := stored_credentials_take_precedence storedStore storedConfig .anthropic
    ⟨some "sk-ant", some "https://alt.example"⟩ rfl rfl
  ⟨h.1, h.2.1 "sk-ant" rfl (by decide), h.2.2 "https://alt.example" rfl (by decide)⟩

end PromptPlayground
